import Mathlib

/-!
Verification development for the portfolio page repository: a shallow
embedding of `src/components/Header.vue` (script setup, template) and of
`src/nuxt.config.ts`, together with theorems settling the specification
claims about them.
-/

namespace Portfolio

/-- A listener registration on the window, as produced by a call to
window.addEventListener. `eventType` is the event name; `passive`,
`capture` and `once` record the options argument of the call, with `none`
meaning the option was not given in the call (so the platform default,
false, applies). -/
structure EventListenerReg where
  eventType : String
  passive : Option Bool
  capture : Option Bool
  once : Option Bool
deriving DecidableEq, Repr

/-- The registration performed at Header.vue line 34:
window.addEventListener("scroll", handler) — the two-argument form, with
no options object at all. -/
def headerScrollListener : EventListenerReg :=
  { eventType := "scroll", passive := none, capture := none, once := none }

/-- The state visible to the Header component script: the `scrolled` ref
it owns, the list of listeners registered on the window scroll signal,
and `rest`, an abstract stand-in for every other piece of component and
global state (which the script never reads or writes). -/
structure EnvState (α : Type) where
  scrolled : Bool
  scrollListeners : List EventListenerReg
  rest : α
deriving DecidableEq, Repr

/-- Header.vue line 31: `const scrolled = ref(false)` — component setup
creates the flag holding false. -/
def setupComponent {α : Type} (s : EnvState α) : EnvState α :=
  { s with scrolled := false }

/-- Header.vue lines 34-36, the body of the scroll-event callback:
`scrolled.value = window.scrollY > 0`, where `y` is the vertical scroll
offset window.scrollY at the event. -/
def handleScroll {α : Type} (y : Nat) (s : EnvState α) : EnvState α :=
  { s with scrolled := decide (y > 0) }

/-- Header.vue lines 33-37, the onMounted hook: it calls
window.addEventListener("scroll", handler), appending one registration
(with no options) to the window scroll-listener list. -/
def onMountedHook {α : Type} (s : EnvState α) : EnvState α :=
  { s with scrollListeners := s.scrollListeners ++ [headerScrollListener] }

/-- Unmounting the Header component. The script setup registers no
onUnmounted hook and never calls removeEventListener (Header.vue lines
29-38 contain no cleanup code), so unmounting performs no change to the
window scroll-listener list nor to any other modelled state. -/
def unmountHeader {α : Type} (s : EnvState α) : EnvState α := s

/-- Delivering a sequence of scroll events, in order; each carries its
window.scrollY offset. -/
def runScrollEvents {α : Type} (s : EnvState α) (ys : List Nat) : EnvState α :=
  ys.foldl (fun t y => handleScroll y t) s

/-- A concrete window state before the component exists: flag storage
false, no scroll listeners registered. -/
def initialWindow : EnvState Unit :=
  { scrolled := false, scrollListeners := [], rest := () }

/-! ## The rendered template (Header.vue lines 1-27) -/

/-- A DOM node: an element with a tag, an attribute list and children, or
a text node. -/
inductive Node : Type where
  | element : String → List (String × String) → List Node → Node
  | text : String → Node

/-- The markup of Header.vue lines 1-27, rendered with the `scrolled` flag
at the given value. The template interpolates no state at all — in
particular it never mentions `scrolled` — so the result does not depend on
the argument. -/
def renderHeader (scrolled : Bool) : Node :=
  .element "header" [("class", "header")] [
    .element "div" [("class", "container")] [
      .element "div" [("class", "header-content")] [
        .element "div" [("class", "logo")] [
          .element "h1" [("class", "name")] [.text "Developer Portfolio"],
          .element "p" [("class", "tagline")]
            [.text "Full Stack Developer | Problem Solver"]],
        .element "nav" [("class", "nav")] [
          .element "ul" [("class", "nav-links")] [
            .element "li" [] [
              .element "a" [("href", "#home"), ("class", "nav-link")]
                [.text "Home"]],
            .element "li" [] [
              .element "a" [("href", "#about"), ("class", "nav-link")]
                [.text "About"]],
            .element "li" [] [
              .element "a" [("href", "#projects"), ("class", "nav-link")]
                [.text "Projects"]],
            .element "li" [] [
              .element "a" [("href", "#skills"), ("class", "nav-link")]
                [.text "Skills"]],
            .element "li" [] [
              .element "a" [("href", "#contact"), ("class", "nav-link")]
                [.text "Contact"]]]],
        .element "button" [("class", "cta-button")] [.text "Get in Touch"]]]]

mutual

/-- The href targets of all anchor (a) elements in a node, in document
order. -/
def anchorHrefs : Node → List String
  | .text _ => []
  | .element tag attrs children =>
      (if tag == "a"
        then attrs.filterMap (fun p => if p.1 == "href" then some p.2 else none)
        else [])
      ++ anchorHrefsList children

/-- The href targets of all anchor elements in a forest, in document
order. -/
def anchorHrefsList : List Node → List String
  | [] => []
  | n :: ns => anchorHrefs n ++ anchorHrefsList ns

end

mutual

/-- Whether a node contains (at itself or below) an element with the given
tag whose class attribute equals the given class. -/
def containsTagClass (tag cls : String) : Node → Bool
  | .text _ => false
  | .element t attrs children =>
      (t == tag && attrs.any (fun p => p.1 == "class" && p.2 == cls))
      || containsTagClassList tag cls children

/-- Forest version of `containsTagClass`. -/
def containsTagClassList (tag cls : String) : List Node → Bool
  | [] => false
  | n :: ns => containsTagClass tag cls n || containsTagClassList tag cls ns

end

/-! ## The framework configuration (src/nuxt.config.ts) -/

/-- An entry of app.head.script in the configuration: a script injected in
the page head, with its source URL and defer attribute. -/
structure HeadScript where
  src : String
  defer : Bool
deriving DecidableEq, Repr

/-- The settings given to defineNuxtConfig in src/nuxt.config.ts lines
3-20. -/
structure NuxtConfig where
  compatibilityDate : String
  devtoolsEnabled : Bool
  modules : List String
  headScripts : List HeadScript
  devServerPort : Nat
deriving DecidableEq, Repr

/-- The single configuration object exported by src/nuxt.config.ts. -/
def nuxtConfig : NuxtConfig :=
  { compatibilityDate := "2025-07-15"
    devtoolsEnabled := true
    modules := ["@nuxt/ui"]
    headScripts := [{ src := "https://cdn.tailwindcss.com", defer := true }]
    devServerPort := 4200 }

end Portfolio

namespace Portfolio

/-- C1: for every scroll event delivered after mount, the handler sets
`scrolled` to true exactly when the vertical offset exceeds zero; in
particular after an event with positive offset the flag is true, and after
a subsequent event with offset 0 it is false. -/
theorem c1_scroll_handler_sets_flag {α : Type} (s : EnvState α) (y : Nat) :
    ((handleScroll y s).scrolled = decide (y > 0))
    ∧ ((handleScroll (y + 1) s).scrolled = true)
    ∧ ((handleScroll 0 (handleScroll (y + 1) s)).scrolled = false) := by
  refine ⟨rfl, by simp [handleScroll], rfl⟩

/-- C2 counterexample: the claim says the addEventListener call at
Header.vue line 34 sets the passive option; in fact the call has no
options argument, so passive is not set. -/
theorem c2_counterexample : ¬ (headerScrollListener.passive = some true) := by
  decide

/-- C2 amended: on mount the Header component registers its scroll
listener with the two-argument addEventListener form — event type scroll
and no options object, so the passive option is not set (the default,
non-passive, applies). -/
theorem c2_listener_not_passive :
    (onMountedHook initialWindow).scrollListeners = [headerScrollListener]
    ∧ headerScrollListener.eventType = "scroll"
    ∧ headerScrollListener.passive = none
    ∧ headerScrollListener.capture = none
    ∧ headerScrollListener.once = none := by
  refine ⟨rfl, rfl, rfl, rfl, rfl⟩

/-- C3 counterexample: the claim says that after a full mount/unmount
cycle the set of window scroll listeners equals the set before mount;
starting from a window with no listeners, after the cycle the listener
registered at mount is still attached. -/
theorem c3_counterexample :
    ¬ ((unmountHeader (onMountedHook (setupComponent initialWindow))).scrollListeners
        = initialWindow.scrollListeners) := by
  decide

/-- C3 amended: the script registers no onUnmounted hook and never calls
removeEventListener, so after a full mount/unmount cycle the window
scroll-listener list equals the list before mount with the one listener
added at mount still appended. -/
theorem c3_listener_survives_unmount {α : Type} (s : EnvState α) :
    (unmountHeader (onMountedHook (setupComponent s))).scrollListeners
      = s.scrollListeners ++ [headerScrollListener] := rfl

/-- C4: the rendered markup does not consume the `scrolled` flag — for any
two values of the flag the rendered DOM tree is identical. -/
theorem c4_render_ignores_flag (b₁ b₂ : Bool) :
    renderHeader b₁ = renderHeader b₂ := rfl

/-- C5: the rendered header contains a logo/tagline block, a
call-to-action button, and a navigation list whose anchor targets are
exactly #home, #about, #projects, #skills, #contact, in that order. -/
theorem c5_header_markup (b : Bool) :
    anchorHrefs (renderHeader b)
        = ["#home", "#about", "#projects", "#skills", "#contact"]
    ∧ containsTagClass "div" "logo" (renderHeader b) = true
    ∧ containsTagClass "p" "tagline" (renderHeader b) = true
    ∧ containsTagClass "button" "cta-button" (renderHeader b) = true
    ∧ containsTagClass "nav" "nav" (renderHeader b) = true := by
  refine ⟨?_, ?_, ?_, ?_, ?_⟩ <;>
    simp [renderHeader, anchorHrefs, anchorHrefsList,
      containsTagClass, containsTagClassList]

/-- C6: mounting registers exactly one listener on the window scroll
signal (the single registration appended by the onMounted hook) and
changes no other state — the flag and all other component/global state are
untouched; the hook is a total function, so it has no error conditions. -/
theorem c6_mount_frame {α : Type} (s : EnvState α) :
    (onMountedHook s).scrollListeners = s.scrollListeners ++ [headerScrollListener]
    ∧ (onMountedHook s).scrolled = s.scrolled
    ∧ (onMountedHook s).rest = s.rest := by
  refine ⟨rfl, rfl, rfl⟩

/-- C7: the scroll-event handler mutates no state other than the
`scrolled` flag: for every event, the window listener list and all other
component/global state are unchanged. -/
theorem c7_handler_frame {α : Type} (s : EnvState α) (y : Nat) :
    (handleScroll y s).scrollListeners = s.scrollListeners
    ∧ (handleScroll y s).rest = s.rest := by
  refine ⟨rfl, rfl⟩

/-- C8: the `scrolled` flag holds false from component setup, and the
mount hook does not change it, so until the first scroll event is
delivered the flag reads false regardless of the scroll offset at mount
time. -/
theorem c8_flag_starts_false {α : Type} (s : EnvState α) :
    (setupComponent s).scrolled = false
    ∧ (onMountedHook (setupComponent s)).scrolled = false := by
  refine ⟨rfl, rfl⟩

/-- C9: the flag depends only on the offset of the most recent scroll
event — any two event sequences ending in the same offset yield the same
flag value — and delivering the same event twice leaves the state as after
delivering it once. -/
theorem c9_last_event_determines_flag {α β : Type}
    (s : EnvState α) (t : EnvState β) (ys zs : List Nat) (y : Nat) :
    ((runScrollEvents s (ys ++ [y])).scrolled
        = (runScrollEvents t (zs ++ [y])).scrolled)
    ∧ handleScroll y (handleScroll y s) = handleScroll y s := by
  constructor
  · simp [runScrollEvents, List.foldl_append, handleScroll]
  · rfl

/-- C10: the configuration exports a single object in which the dev server
port is 4200, devtools are enabled, the module list holds only @nuxt/ui,
and exactly one head script is injected, loading Tailwind from
https://cdn.tailwindcss.com with defer set. -/
theorem c10_nuxt_config :
    nuxtConfig.devServerPort = 4200
    ∧ nuxtConfig.devtoolsEnabled = true
    ∧ nuxtConfig.modules = ["@nuxt/ui"]
    ∧ nuxtConfig.headScripts
        = [{ src := "https://cdn.tailwindcss.com", defer := true }] := by
  refine ⟨rfl, rfl, rfl, rfl⟩

end Portfolio
